import Mathlib

/-!
Verification of the adbb UDP link layer (`src/adbb/link.py`).

The file gives a shallow embedding of the link-layer state and operations:
the tag allocator (`AniDBLink._new_tag`), the flood-control pacing policy and
ban backoff (`AniDBLink._do_delay`), the outbound deque discipline
(`AniDBLink.request` / `AniDBLink.run`), the ban handler
(`AniDBLink.set_banned`), the receiver's tag matching and compression marker
test (`AniDBListener.run`), the expiry sweep (`AniDBListener._handle_timeouts`)
and `AniDBLink.stop`.  Machine times are modelled as integers, Python `dict`s
either as association lists in insertion order or as lookup functions, and
Python exceptions as `Except` values.
-/

namespace Adbb

/-! ### Python value and error model

`AniDBListener.run` compares a `bytes` slice against a `str` literal; in
Python 3 values of different types compare unequal.  Exceptions that the
link-layer code can raise are reified as error values. -/

/-- A Python runtime value as far as the link layer compares them: a byte
string (from `sock.recv`) or a text string (a literal). -/
inductive PyVal where
  | bytes (bs : List Nat)
  | str (s : String)
deriving DecidableEq

/-- Python 3 `==`: `bytes` and `str` operands of different types are never
equal; same-typed operands compare structurally. -/
def pyEq : PyVal → PyVal → Bool
  | .bytes a, .bytes b => a = b
  | .str a, .str b => a = b
  | _, _ => false

/-- Python exceptions raised by the link layer code paths modelled here. -/
inductive PyErr where
  | keyError
  | attributeError
deriving DecidableEq

/-! ### Tag allocator: `AniDBLink._new_tag` (link.py lines 86-93) -/

/-- One decimal digit as a character, `chr(48 + d)` for `d < 10`. -/
def tagChar (d : Nat) : Char := Char.ofNat (48 + d)

/-- Python `"T{:03d}".format n` for `n ≤ 999`: a `T` followed by the three
zero-padded decimal digits of `n`. -/
def fmtTag (n : Nat) : String :=
  String.mk ['T', tagChar (n / 100), tagChar (n / 10 % 10), tagChar (n % 10)]

/-- `AniDBLink._new_tag`: if `_current_tag >= 999` reset the counter to `0`
and emit the constant overflow tag `TOOO`; otherwise increment the counter and
emit `T{:03d}` of the new value.  Returns the new counter and the tag. -/
def new_tag (current_tag : Nat) : Nat × String :=
  if current_tag ≥ 999 then (0, "TOOO")
  else (current_tag + 1, fmtTag (current_tag + 1))

/-! ### Allocation/in-flight model for the tag-uniqueness claim

`AniDBLink.request` (lines 150-164) draws a tag from `_new_tag` and stores the
command in the listener's `cmd_queue` dict under that tag
(`self._listener.cmd_queue[command.tag] = command`).  The dict is modelled as
a lookup function, assignment overwriting any previous binding; commands are
identified by the order in which they were requested. -/

/-- The link/listener state that tag allocation touches: the allocator counter,
the In-Flight Table as a tag-lookup function, and the id the next request will
receive. -/
structure TagState where
  _current_tag : Nat
  cmd_queue : String → Option Nat
  next_id : Nat

/-- One `AniDBLink.request` call on a command that is never answered: allocate
a tag with `_new_tag` and bind it in `cmd_queue` (dict assignment overwrites a
previous binding of the same tag). -/
def request_alloc (s : TagState) : TagState :=
  { _current_tag := (new_tag s._current_tag).1,
    cmd_queue := fun k =>
      if k = (new_tag s._current_tag).2 then some s.next_id else s.cmd_queue k,
    next_id := s.next_id + 1 }

/-- Freshly constructed link: `_current_tag = 0`, empty `cmd_queue`. -/
def tagInit : TagState :=
  { _current_tag := 0, cmd_queue := fun _ => none, next_id := 0 }

/-- The allocator counter after `n` requests on a fresh link. -/
def counterAfter (n : Nat) : Nat := (request_alloc^[n] tagInit)._current_tag

/-- The tag drawn by request number `n` (zero-based) on a fresh link. -/
def tagAt (n : Nat) : String := (new_tag (counterAfter n)).2

/-! ### Pacing policy: `AniDBLink._do_delay`, unbanned path (lines 103-114)

`age` stands for `time() - self._last_packet`.  The function returns the new
send counter together with the signed delay value the code computes; the
duration actually slept is that value when positive, else nothing. -/

/-- The unbanned branch of `_do_delay`: reset the counter and use target `0`
when idle for more than 120 s, else target `2` below 5 sends and `6` from the
fifth send on; the code then subtracts the elapsed age from the target. -/
def do_delay_paced (counter : Nat) (age : ℤ) : Nat × ℤ :=
  if age > 120 then (0, 0 - age)
  else if counter < 5 then (counter, 2 - age)
  else (counter, 6 - age)

/-- Duration actually slept by the unbanned `_do_delay` path: the computed
delay if positive (`if delay > 0: sleep(delay)`), otherwise zero. -/
def sleptDelay (counter : Nat) (age : ℤ) : ℤ :=
  if (do_delay_paced counter age).2 > 0 then (do_delay_paced counter age).2 else 0

/-! ### Ban backoff: `AniDBLink._do_delay`, banned path (lines 96-102) -/

/-- Sleep duration of the banned branch:
`max(pow(2*3600, self._banned), 48*3600)` seconds. -/
def ban_delay (banned : Nat) : Nat := max ((2 * 3600) ^ banned) (48 * 3600)

end Adbb

namespace Adbb

/-! ### First theorems: pacing (C2) and ban backoff (C3) -/

/-- Helper: the `if delay > 0 then delay else 0` sleep guard equals a floor at
zero. -/
theorem slept_eq_max (counter : Nat) (age : ℤ) :
    sleptDelay counter age = max 0 (do_delay_paced counter age).2 := by
  unfold sleptDelay
  rcases le_or_lt (do_delay_paced counter age).2 0 with h | h
  · rw [if_neg (not_lt.mpr h), max_eq_left h]
  · rw [if_pos h, max_eq_right h.le]

end Adbb

/-- C2: pacing step of `_do_delay` when not banned.  If more than 120 s have
elapsed since the last transmission the send counter resets to zero and
nothing is slept; otherwise the counter is unchanged, the target is 2 s below
five sends and 6 s from five sends on, and the duration slept is the target
minus the elapsed age floored at zero.  In particular age 1 with counter 3
sleeps 1 s, age 1 with counter 6 sleeps 5 s, and age 130 sleeps nothing and
resets the counter. -/
theorem Adbb.C2_pacing_policy :
    (∀ (counter : Nat) (age : ℤ), 120 < age →
      (Adbb.do_delay_paced counter age).1 = 0 ∧ Adbb.sleptDelay counter age = 0) ∧
    (∀ (counter : Nat) (age : ℤ), age ≤ 120 →
      (Adbb.do_delay_paced counter age).1 = counter ∧
      Adbb.sleptDelay counter age =
        max 0 ((if counter < 5 then (2 : ℤ) else 6) - age)) ∧
    Adbb.sleptDelay 3 1 = 1 ∧ Adbb.sleptDelay 6 1 = 5 ∧
    Adbb.sleptDelay 0 130 = 0 ∧ (Adbb.do_delay_paced 0 130).1 = 0 := by
  refine ⟨?_, ?_, by decide, by decide, by decide, by decide⟩
  · intro counter age h
    constructor
    · simp [Adbb.do_delay_paced, if_pos h]
    · rw [Adbb.slept_eq_max]
      simp only [Adbb.do_delay_paced, if_pos h]
      omega
  · intro counter age h
    have hn : ¬ (120 : ℤ) < age := not_lt.mpr h
    constructor
    · simp only [Adbb.do_delay_paced, if_neg hn]
      split <;> rfl
    · rw [Adbb.slept_eq_max]
      simp only [Adbb.do_delay_paced, if_neg hn]
      split <;> rfl

/-- C2 witness: the theorem applied at counter 3, age 1. -/
theorem Adbb.C2_pacing_policy_witness :
    (1 : ℤ) ≤ 120 ∧ (Adbb.do_delay_paced 3 1).1 = 3 ∧
      Adbb.sleptDelay 3 1 = max 0 ((if 3 < 5 then (2 : ℤ) else 6) - 1) :=
  ⟨by decide, (Adbb.C2_pacing_policy.2.1 3 1 (by decide)).1,
    (Adbb.C2_pacing_policy.2.1 3 1 (by decide)).2⟩

/-- C3 counterexample: the claim caps the ban backoff at 48 hours, but at ban
count 2 the code computes `max(7200^2, 172800) = 51840000` seconds, far above
`48*3600 = 172800`. -/
theorem Adbb.C3_ban_cap_counterexample :
    Adbb.ban_delay 2 = 51840000 ∧ 48 * 3600 < Adbb.ban_delay 2 := by
  constructor <;> decide

/-- C3 amended: for every ban count `n ≥ 1` the backoff escalates (it is
nondecreasing in `n`) and is always at least 48 hours; from the second
consecutive ban on it strictly exceeds 48 hours, because the formula takes the
maximum of `7200^n` and `48*3600` rather than capping at it. -/
theorem Adbb.C3_ban_backoff_amended :
    ∀ n : Nat, 1 ≤ n →
      (48 * 3600 ≤ Adbb.ban_delay n ∧ Adbb.ban_delay n ≤ Adbb.ban_delay (n + 1)) ∧
      (2 ≤ n → 48 * 3600 < Adbb.ban_delay n) := by
  intro n _
  refine ⟨⟨le_max_right _ _, ?_⟩, ?_⟩
  · exact max_le_max (Nat.pow_le_pow_right (by norm_num) (Nat.le_succ n)) le_rfl
  · intro h2
    have hpow : (2 * 3600) ^ 2 ≤ (2 * 3600) ^ n :=
      Nat.pow_le_pow_right (by norm_num) h2
    calc 48 * 3600 < (2 * 3600) ^ 2 := by norm_num
      _ ≤ (2 * 3600) ^ n := hpow
      _ ≤ Adbb.ban_delay n := le_max_left _ _

/-- C3 amended witness: the theorem applied at ban count 2. -/
theorem Adbb.C3_ban_backoff_amended_witness :
    1 ≤ 2 ∧ 48 * 3600 ≤ Adbb.ban_delay 2 ∧ 48 * 3600 < Adbb.ban_delay 2 :=
  ⟨by decide, (Adbb.C3_ban_backoff_amended 2 (by decide)).1.1,
    (Adbb.C3_ban_backoff_amended 2 (by decide)).2 (by decide)⟩

namespace Adbb

/-! ### Tag allocator lemmas (claim C1) -/

/-- Digit characters are distinct for distinct digits. -/
theorem tagChar_inj : ∀ d1 < 10, ∀ d2 < 10, tagChar d1 = tagChar d2 → d1 = d2 := by
  decide

/-- No digit character is the letter `O` of the overflow tag. -/
theorem tagChar_ne_upperO : ∀ d < 10, tagChar d ≠ 'O' := by
  decide

/-- `fmtTag` is injective on the three-digit range. -/
theorem fmtTag_inj (a b : Nat) (ha : a < 1000) (hb : b < 1000)
    (h : fmtTag a = fmtTag b) : a = b := by
  have hd := congrArg String.data h
  simp only [fmtTag] at hd
  have h2 : tagChar (a / 100) = tagChar (b / 100) := by
    injection hd with _ hd1
    injection hd1
  have h1 : tagChar (a / 10 % 10) = tagChar (b / 10 % 10) := by
    injection hd with _ hd1
    injection hd1 with _ hd2
    injection hd2
  have h0 : tagChar (a % 10) = tagChar (b % 10) := by
    injection hd with _ hd1
    injection hd1 with _ hd2
    injection hd2 with _ hd3
    injection hd3
  have e2 := tagChar_inj (a / 100) (by omega) (b / 100) (by omega) h2
  have e1 := tagChar_inj (a / 10 % 10) (by omega) (b / 10 % 10) (by omega) h1
  have e0 := tagChar_inj (a % 10) (by omega) (b % 10) (by omega) h0
  omega

/-- A numeric tag is never the overflow tag `TOOO`. -/
theorem fmtTag_ne_overflow (n : Nat) (hn : n < 1000) : fmtTag n ≠ "TOOO" := by
  intro h
  have hd := congrArg String.data h
  simp only [fmtTag] at hd
  have h2 : tagChar (n / 100) = 'O' := by
    injection hd with _ hd1
    injection hd1
  exact tagChar_ne_upperO (n / 100) (by omega) h2

/-- Below the wrap point the allocator counter after `n` fresh-link requests
is `n`. -/
theorem counterAfter_of_le : ∀ n, n ≤ 999 → counterAfter n = n := by
  intro n
  induction n with
  | zero => intro _; rfl
  | succ k ih =>
    intro h
    unfold counterAfter
    rw [Function.iterate_succ_apply']
    show (request_alloc (request_alloc^[k] tagInit))._current_tag = k + 1
    simp only [request_alloc]
    have hk : (request_alloc^[k] tagInit)._current_tag = k := ih (by omega)
    rw [hk]
    have hlt : ¬ k ≥ 999 := by omega
    simp [new_tag, hlt]

/-- The 1000th fresh-link request wraps the counter back to zero. -/
theorem counterAfter_wrap : counterAfter 1000 = 0 := by
  unfold counterAfter
  rw [show (1000 : Nat) = 999 + 1 from rfl, Function.iterate_succ_apply']
  show (request_alloc (request_alloc^[999] tagInit))._current_tag = 0
  simp only [request_alloc]
  have hk : (request_alloc^[999] tagInit)._current_tag = 999 :=
    counterAfter_of_le 999 le_rfl
  rw [hk]
  simp [new_tag]

/-- The id assigned to fresh-link request `n` is `n`. -/
theorem nextId_after : ∀ n, (request_alloc^[n] tagInit).next_id = n := by
  intro n
  induction n with
  | zero => rfl
  | succ k ih =>
    rw [Function.iterate_succ_apply']
    show (request_alloc (request_alloc^[k] tagInit)).next_id = k + 1
    simp only [request_alloc]
    rw [ih]

/-- Within one allocator cycle (the first 1000 fresh-link requests) all tags
are pairwise distinct. -/
theorem tagAt_ne (i j : Nat) (hij : i < j) (hj : j < 1000) :
    tagAt i ≠ tagAt j := by
  have hi9 : i ≤ 999 := by omega
  have hj9 : j ≤ 999 := by omega
  unfold tagAt
  rw [counterAfter_of_le i hi9, counterAfter_of_le j hj9]
  have hi : ¬ i ≥ 999 := by omega
  by_cases hje : j = 999
  · subst hje
    simp only [new_tag, if_neg hi, if_pos (show 999 ≥ 999 from le_rfl)]
    exact fmtTag_ne_overflow (i + 1) (by omega)
  · have hjlt : ¬ j ≥ 999 := by omega
    simp only [new_tag, if_neg hi, if_neg hjlt]
    intro h
    have := fmtTag_inj (i + 1) (j + 1) (by omega) (by omega) h
    omega

/-- After `n ≤ 1000` fresh-link requests none of which was answered, the
In-Flight Table still maps the tag of request `j < n` to request `j`. -/
theorem cmd_queue_after :
    ∀ n, n ≤ 1000 → ∀ j, j < n →
      (request_alloc^[n] tagInit).cmd_queue (tagAt j) = some j := by
  intro n
  induction n with
  | zero => intro _ j hj; omega
  | succ k ih =>
    intro hn j hj
    rw [Function.iterate_succ_apply']
    show (request_alloc (request_alloc^[k] tagInit)).cmd_queue (tagAt j) = some j
    simp only [request_alloc]
    have htag : (new_tag (request_alloc^[k] tagInit)._current_tag).2 = tagAt k := rfl
    rw [htag]
    by_cases hjk : j = k
    · subst hjk
      rw [if_pos rfl, nextId_after]
    · have hj2 : j < k := by omega
      rw [if_neg (tagAt_ne j k hj2 (by omega))]
      exact ih (by omega) j hj2

end Adbb

/-- C1 counterexample: the allocator does not keep tags distinct from the
In-Flight Table.  On a fresh link where no request is ever answered, request
0 gets tag `T001` and is still in `cmd_queue` after 1000 requests, yet request
1000 is allocated the same tag `T001` (the counter wrapped), and its dict
assignment silently overwrites the pending entry of request 0. -/
theorem Adbb.C1_tag_reuse_counterexample :
    Adbb.tagAt 0 = "T001" ∧ Adbb.tagAt 1000 = "T001" ∧
    (Adbb.request_alloc^[1000] Adbb.tagInit).cmd_queue "T001" = some 0 ∧
    (Adbb.request_alloc^[1001] Adbb.tagInit).cmd_queue "T001" = some 1000 := by
  have h0 : Adbb.tagAt 0 = "T001" := by decide
  have h1000 : Adbb.tagAt 1000 = "T001" := by
    unfold Adbb.tagAt
    rw [Adbb.counterAfter_wrap]
    decide
  refine ⟨h0, h1000, ?_, ?_⟩
  · have h := Adbb.cmd_queue_after 1000 le_rfl 0 (by omega)
    rwa [h0] at h
  · rw [show (1001 : Nat) = 1000 + 1 from rfl, Function.iterate_succ_apply']
    show (Adbb.request_alloc (Adbb.request_alloc^[1000] Adbb.tagInit)).cmd_queue "T001" = some 1000
    simp only [Adbb.request_alloc]
    have htag : (Adbb.new_tag (Adbb.request_alloc^[1000] Adbb.tagInit)._current_tag).2 =
        Adbb.tagAt 1000 := rfl
    rw [htag, h1000, if_pos rfl, Adbb.nextId_after]

/-- C1 amended: tag uniqueness holds only within one allocator cycle.  The
first 1000 tags drawn on a fresh link (`T001` … `T999`, then the overflow tag
`TOOO`) are pairwise distinct, so during that window no allocator-returned tag
collides with a table entry; but the allocator performs no collision check
against `cmd_queue`, and once the counter wraps it reissues earlier tags:
request 1000 receives the same tag as request 0. -/
theorem Adbb.C1_tag_uniqueness_amended :
    (∀ i j : Nat, i < j → j < 1000 → Adbb.tagAt i ≠ Adbb.tagAt j) ∧
    Adbb.tagAt 1000 = Adbb.tagAt 0 := by
  constructor
  · exact fun i j hij hj => Adbb.tagAt_ne i j hij hj
  · unfold Adbb.tagAt
    rw [Adbb.counterAfter_wrap]
    rfl

/-- C1 amended witness: the theorem applied at requests 0 and 1. -/
theorem Adbb.C1_tag_uniqueness_amended_witness :
    0 < 1 ∧ 1 < 1000 ∧ Adbb.tagAt 0 ≠ Adbb.tagAt 1 :=
  ⟨by decide, by decide,
    Adbb.C1_tag_uniqueness_amended.1 0 1 (by decide) (by decide)⟩

namespace Adbb

/-! ### Outbound Queue: `AniDBLink.request` / `AniDBLink.run`

`_queue` is a `collections.deque`, modelled as a list whose head is the left
end.  `request` (lines 161-164) does `append` (right end) for `prio=True` and
`appendleft` for `prio=False`; the sender loop (line 121) takes `pop()` from
the right end.  Requests are identified by numbers. -/

/-- The queue effect of `AniDBLink.request` for a non-AUTH command:
`self._queue.append(command)` when `prio` else
`self._queue.appendleft(command)`. -/
def enqueue (q : List Nat) (r : Nat) (prio : Bool) : List Nat :=
  if prio then q ++ [r] else r :: q

/-- A sequence of `request` calls applied to a queue, oldest first. -/
def applyEnqueues : List Nat → List (Nat × Bool) → List Nat
  | q, [] => q
  | q, (r, p) :: rest => applyEnqueues (enqueue q r p) rest

/-- `self._queue.pop()` in the sender loop: the right end of the deque. -/
def dequeued (q : List Nat) : Option Nat := q.getLast?

/-- The priority requests of an enqueue sequence, in arrival order. -/
def priosOf : List (Nat × Bool) → List Nat
  | [] => []
  | (r, true) :: rest => r :: priosOf rest
  | (_, false) :: rest => priosOf rest

/-- The normal requests of an enqueue sequence, in arrival order. -/
def normalsOf : List (Nat × Bool) → List Nat
  | [] => []
  | (_, true) :: rest => normalsOf rest
  | (r, false) :: rest => r :: normalsOf rest

/-- Queue-shape invariant: after any enqueue sequence the deque is the
reversed normal arrivals followed by the priority arrivals. -/
theorem applyEnqueues_split :
    ∀ (ops : List (Nat × Bool)) (N P : List Nat),
      applyEnqueues (N.reverse ++ P) ops =
        (N ++ normalsOf ops).reverse ++ (P ++ priosOf ops) := by
  intro ops
  induction ops with
  | nil =>
    intro N P
    simp [applyEnqueues, normalsOf, priosOf]
  | cons op rest ih =>
    intro N P
    obtain ⟨r, p⟩ := op
    cases p with
    | true =>
      show applyEnqueues (enqueue (N.reverse ++ P) r true) rest = _
      have he : enqueue (N.reverse ++ P) r true = N.reverse ++ (P ++ [r]) := by
        simp [enqueue]
      rw [he, ih N (P ++ [r])]
      simp [normalsOf, priosOf]
    | false =>
      show applyEnqueues (enqueue (N.reverse ++ P) r false) rest = _
      have he : enqueue (N.reverse ++ P) r false = (N ++ [r]).reverse ++ P := by
        simp [enqueue]
      rw [he, ih (N ++ [r]) P]
      simp [normalsOf, priosOf]

/-- Specialisation to the empty starting queue. -/
theorem applyEnqueues_nil (ops : List (Nat × Bool)) :
    applyEnqueues [] ops = (normalsOf ops).reverse ++ priosOf ops := by
  have h := applyEnqueues_split ops [] []
  simpa using h

end Adbb

/-- C4 counterexample: within the priority class the deque is LIFO, not FIFO.
Enqueue request 1 with `prio=True`, then request 2 with `prio=True`: the
sender's `pop()` returns request 2, the one enqueued later, not request 1. -/
theorem Adbb.C4_priority_fifo_counterexample :
    Adbb.applyEnqueues [] [(1, true), (2, true)] = [1, 2] ∧
    Adbb.dequeued (Adbb.applyEnqueues [] [(1, true), (2, true)]) = some 2 ∧
    Adbb.dequeued (Adbb.applyEnqueues [] [(1, true), (2, true)]) ≠ some 1 := by
  refine ⟨by decide, by decide, by decide⟩

/-- C4 amended: after any sequence of enqueues the deque consists of the
reversed normal arrivals followed by the priority arrivals, so `pop()` serves
every waiting priority request before any waiting normal request, serves
normal requests FIFO among themselves, but serves priority requests LIFO
among themselves (both `append` for priority and `pop` act on the right end
of the deque). -/
theorem Adbb.C4_queue_order_amended :
    (∀ ops : List (Nat × Bool),
      Adbb.applyEnqueues [] ops =
        (Adbb.normalsOf ops).reverse ++ Adbb.priosOf ops) ∧
    (∀ ops : List (Nat × Bool), Adbb.priosOf ops ≠ [] →
      Adbb.dequeued (Adbb.applyEnqueues [] ops) = (Adbb.priosOf ops).getLast?) ∧
    (∀ ops : List (Nat × Bool), Adbb.priosOf ops = [] →
      Adbb.dequeued (Adbb.applyEnqueues [] ops) = (Adbb.normalsOf ops).head?) := by
  refine ⟨Adbb.applyEnqueues_nil, ?_, ?_⟩
  · intro ops hne
    rw [Adbb.dequeued, Adbb.applyEnqueues_nil]
    exact List.getLast?_append_of_ne_nil _ hne
  · intro ops hnil
    rw [Adbb.dequeued, Adbb.applyEnqueues_nil, hnil]
    rw [List.append_nil]
    exact List.getLast?_reverse _

/-- C4 amended witness: the theorem applied to the sequence normal 1 then
priority 2, whose dequeue serves the priority request first. -/
theorem Adbb.C4_queue_order_amended_witness :
    Adbb.priosOf [(1, false), (2, true)] ≠ [] ∧
    Adbb.dequeued (Adbb.applyEnqueues [] [(1, false), (2, true)]) =
      (Adbb.priosOf [(1, false), (2, true)]).getLast? :=
  ⟨by decide, Adbb.C4_queue_order_amended.2.1 [(1, false), (2, true)] (by decide)⟩

namespace Adbb

/-! ### Sender loop and AUTH bypass: `AniDBLink.request` / `AniDBLink.run`

`request` (lines 157-160) transmits an `AUTH` command immediately instead of
queueing it.  The sender loop (lines 116-130) pops a command; for a non-AUTH
command with `_authed` unset it calls `_reauthenticate`, which issues the AUTH
request through `request` — transmitting it at once — and then blocks on
`_authed.wait()` until authentication completes before transmitting the popped
command; after transmitting a `LOGOUT` command the loop ends.  Commands are
identified by their command-name string, and the trace lists transmitted
command names in wire order. -/

/-- The queue effect of `AniDBLink.request`: an `AUTH` command bypasses the
queue and is transmitted immediately (the Bool records an immediate send);
otherwise the command is enqueued on the deque end selected by `prio`. -/
def request_queue_effect (q : List String) (cmd : String) (prio : Bool) :
    List String × Bool :=
  if cmd = "AUTH" then (q, true)
  else if prio then (q ++ [cmd], false)
  else (cmd :: q, false)

/-- The sender loop of `AniDBLink.run` over the commands it will pop, in pop
order: a non-AUTH command while unauthenticated first triggers the immediate
AUTH transmission of `_reauthenticate` and waits until authentication holds;
every popped command is then transmitted, and a `LOGOUT` ends the loop. -/
def senderTrace : Bool → List String → List String
  | _, [] => []
  | authed, c :: rest =>
    if c = "AUTH" then
      c :: (if c = "LOGOUT" then [] else senderTrace authed rest)
    else if authed then
      c :: (if c = "LOGOUT" then [] else senderTrace authed rest)
    else
      "AUTH" :: c :: (if c = "LOGOUT" then [] else senderTrace true rest)

end Adbb

/-- C5: an AUTH command never enters the Outbound Queue — `request` leaves the
queue unchanged and transmits it immediately — and on a link that starts
unauthenticated the first transmitted datagram of the sender loop is `AUTH`,
whatever the order and priorities of the queued commands. -/
theorem Adbb.C5_auth_first :
    (∀ (q : List String) (prio : Bool),
      Adbb.request_queue_effect q "AUTH" prio = (q, true)) ∧
    (∀ cmds : List String, cmds ≠ [] →
      (Adbb.senderTrace false cmds).head? = some "AUTH") := by
  constructor
  · intro q prio
    simp [Adbb.request_queue_effect]
  · intro cmds hne
    match cmds with
    | [] => exact absurd rfl hne
    | c :: rest =>
      by_cases hc : c = "AUTH"
      · subst hc
        simp [Adbb.senderTrace]
      · simp [Adbb.senderTrace, hc]

/-- C5 witness: the theorem applied to an empty queue plus a single queued
FILE command. -/
theorem Adbb.C5_auth_first_witness :
    Adbb.request_queue_effect [] "AUTH" false = ([], true) ∧
    (["FILE"] : List String) ≠ [] ∧
    (Adbb.senderTrace false ["FILE"]).head? = some "AUTH" :=
  ⟨Adbb.C5_auth_first.1 [] false, by decide,
    Adbb.C5_auth_first.2 ["FILE"] (by decide)⟩

namespace Adbb

/-! ### Ban handler: `AniDBLink.set_banned` (lines 181-187)

The constructor (line 47) initialises `self._banned = 0` and never creates an
attribute named `banned`; `_auth_handler` (line 80) resets `_banned` to 0.
`set_banned` executes `self.banned += 1`, which first reads the non-existent
attribute `banned`.  Attributes are modelled explicitly: `_banned` is a
number, `banned` an optional number that is `none` while the attribute does
not exist.  The statements after the increment (clearing `_authed`, setting
`_session = 0`, re-authenticating, and — back in the listener — re-enqueueing
the command with priority) are modelled in the success branch, which Python
can only reach if some earlier assignment had created `banned`. -/

/-- The value of `self._session`: `None` at startup, a session-key string
after login, or the integer `0` that `set_banned` would assign. -/
inductive PySession where
  | noneV
  | key (s : String)
  | zero
deriving DecidableEq

/-- Link attributes read or written by `set_banned`. -/
structure BanState where
  _banned : Nat
  banned : Option Nat
  _authed : Bool
  _session : PySession
  reauthRequested : Bool
  reenqueuedPrio : Bool
deriving DecidableEq

/-- Link attribute state right after `AniDBLink.__init__`. -/
def banInit : BanState :=
  { _banned := 0, banned := none, _authed := false, _session := .noneV,
    reauthRequested := false, reenqueuedPrio := false }

/-- `AniDBLink.set_banned` followed by the listener's re-enqueue: the first
statement `self.banned += 1` reads attribute `banned` and raises
`AttributeError` when it does not exist; otherwise it increments `banned`
(not `_banned`), clears `_authed`, sets `_session = 0`, re-authenticates, and
the listener then re-issues the command with `prio=True`. -/
def set_banned (s : BanState) : Except PyErr BanState :=
  match s.banned with
  | none => .error .attributeError
  | some b =>
    .ok { s with banned := some (b + 1), _authed := false, _session := .zero,
                 reauthRequested := true, reenqueuedPrio := true }

end Adbb

/-- C6: refuted by the code.  On every state whose `banned` attribute does not
exist — true from construction on, since no method ever creates it — the
'504'/'555' branch of the listener raises `AttributeError` inside
`set_banned` before incrementing any counter, clearing the session or
re-enqueueing the request; the Ban Counter `_banned` is never touched. -/
theorem Adbb.C6_ban_counter_bug :
    ∀ s : Adbb.BanState, s.banned = none →
      Adbb.set_banned s = Except.error Adbb.PyErr.attributeError := by
  intro s h
  unfold Adbb.set_banned
  rw [h]

/-- C6 witness: the theorem applied to the post-constructor state. -/
theorem Adbb.C6_ban_counter_bug_witness :
    Adbb.banInit.banned = none ∧
    Adbb.set_banned Adbb.banInit = Except.error Adbb.PyErr.attributeError :=
  ⟨rfl, Adbb.C6_ban_counter_bug Adbb.banInit rfl⟩

namespace Adbb

/-! ### Receiver tag matching: `AniDBListener.run` (line 239)

`cmd = self.cmd_queue.pop(resp.restag)` is a Python `dict.pop` with no
default: it raises `KeyError` when the tag has no entry, and nothing in the
listener loop catches it. -/

/-- Python `dict.pop(key)` without a default on a dict modelled as a lookup
function: the value and the dict without the key, or `KeyError`. -/
def dict_pop (m : String → Option Nat) (key : String) :
    Except PyErr (Nat × (String → Option Nat)) :=
  match m key with
  | none => .error .keyError
  | some v => .ok (v, fun k => if k = key then none else m k)

/-- The receiver's matching step for an inbound response: pop the In-Flight
Table entry for the response tag. -/
def receiver_match (cmd_queue : String → Option Nat) (restag : String) :
    Except PyErr (Nat × (String → Option Nat)) :=
  dict_pop cmd_queue restag

end Adbb

/-- C7: refuted by the code.  For every inbound response whose tag has no
entry in the In-Flight Table, the receiver's `cmd_queue.pop(resp.restag)`
raises `KeyError`; the listener loop has no handler for it, so the datagram
is not logged-and-discarded — the exception escapes the loop iteration. -/
theorem Adbb.C7_unknown_tag_bug :
    ∀ (cmd_queue : String → Option Nat) (restag : String),
      cmd_queue restag = none →
      Adbb.receiver_match cmd_queue restag = Except.error Adbb.PyErr.keyError := by
  intro m restag h
  unfold Adbb.receiver_match Adbb.dict_pop
  rw [h]

/-- C7 witness: the theorem applied to an empty table and tag `T005`. -/
theorem Adbb.C7_unknown_tag_bug_witness :
    (fun _ : String => (none : Option Nat)) "T005" = none ∧
    Adbb.receiver_match (fun _ => none) "T005" =
      Except.error Adbb.PyErr.keyError :=
  ⟨rfl, Adbb.C7_unknown_tag_bug (fun _ => none) "T005" rfl⟩

namespace Adbb

/-! ### Expiry sweep: `AniDBListener._handle_timeouts` (lines 264-277)

The first loop walks `cmd_queue.items()` collecting into `willpop` the tags of
entries whose send timestamp exists (`if cmd.started:` — falsy for `None` and
for `0`) and is older than the timeout; the loop variable `cmd` keeps its last
value afterwards.  The second loop tests `isinstance(cmd, AuthCommand)`
BEFORE reassigning `cmd = self.cmd_queue.pop(tag)`, so the test always sees
the previous loop's leftover command, not the expired one; then the popped
command's `handle_timeout` runs.  `cmd_queue` is modelled as an association
list in dict insertion order, timestamps as integers. -/

/-- An in-flight command as the sweep sees it: its tag, its optional send
timestamp, and whether it is an `AuthCommand`. -/
structure SweepCmd where
  tag : String
  started : Option ℤ
  is_auth : Bool
deriving DecidableEq

/-- First loop of `_handle_timeouts`: accumulate the expired tags and track
the `for`-loop variable `cmd`, which is reassigned on every iteration even
when `continue` skips the body. -/
def sweep_scan (now timeout : ℤ) (queue : List (String × SweepCmd)) :
    List String × Option SweepCmd :=
  queue.foldl
    (fun acc entry =>
      ( if entry.1 = "" then acc.1
        else match entry.2.started with
          | none => acc.1
          | some st =>
            if st = 0 then acc.1
            else if now - st > timeout then acc.1 ++ [entry.2.tag] else acc.1,
        some entry.2))
    ([], none)

/-- Remove the first binding of `tag` from an association list, returning the
bound command and the remaining list (`dict.pop`). -/
def assoc_pop (tag : String) :
    List (String × SweepCmd) → Option (SweepCmd × List (String × SweepCmd))
  | [] => none
  | (t, c) :: rest =>
    if t = tag then some (c, rest)
    else (assoc_pop tag rest).map (fun p => (p.1, (t, c) :: p.2))

/-- Second loop of `_handle_timeouts`: for each collected tag, first test the
stale `cmd` variable for `AuthCommand` (triggering re-authentication), then
pop the entry — `KeyError` if absent — and run its timeout handler.  Returns
the remaining table, whether `reauthenticate` was called, and the tags whose
timeout handler ran, in order. -/
def sweep_pop : List String → Option SweepCmd → List (String × SweepCmd) →
    Bool → List String →
    Except PyErr (List (String × SweepCmd) × Bool × List String)
  | [], _, q, reauth, handled => .ok (q, reauth, handled)
  | tag :: rest, cv, q, reauth, handled =>
    match assoc_pop tag q with
    | none => .error .keyError
    | some (cmd, q2) =>
      sweep_pop rest (some cmd) q2
        (reauth || (match cv with | some c => c.is_auth | none => false))
        (handled ++ [cmd.tag])

/-- `AniDBListener._handle_timeouts`, whole sweep. -/
def handle_timeouts (now timeout : ℤ) (queue : List (String × SweepCmd)) :
    Except PyErr (List (String × SweepCmd) × Bool × List String) :=
  sweep_pop (sweep_scan now timeout queue).1 (sweep_scan now timeout queue).2
    queue false []

end Adbb

/-- C8: refuted by the code on its re-authentication clause.  Take a table
holding the expired AUTH request (tag `T001`, sent at time 10) followed by an
unexpired normal request (tag `T002`, sent at 120), swept at time 131 with
timeout 20.  The sweep does remove exactly the expired entry and runs exactly
its timeout handler, and leaves the never-sent/unexpired entry untouched —
but `reauthenticate` is NOT called, because the `isinstance` test reads the
stale loop variable (here the last-scanned normal command) instead of the
popped AUTH command. -/
theorem Adbb.C8_expiry_sweep_bug :
    Adbb.handle_timeouts 131 20
      [("T001", ⟨"T001", some 10, true⟩), ("T002", ⟨"T002", some 120, false⟩)] =
    Except.ok ([("T002", ⟨"T002", some 120, false⟩)], false, ["T001"]) := by
  rfl

namespace Adbb

/-! ### Compression marker: `AniDBListener.run` (lines 230-236)

`data` comes from `sock.recv` and is `bytes`; the test
`tmp[:2] == '\x00\x00'` compares that `bytes` slice with a `str` literal,
which in Python 3 is always false, so the zlib branch is dead code.  The
decompressor itself is external (zlib) and is passed in as a function. -/

/-- The `str` literal of two NUL characters from line 233. -/
def zeroMarkerLiteral : String := String.mk [Char.ofNat 0, Char.ofNat 0]

/-- The marker test of line 233: Python `==` between the first two bytes of
the datagram and the two-NUL `str` literal. -/
def marker_test (data : List Nat) : Bool :=
  pyEq (.bytes (data.take 2)) (.str zeroMarkerLiteral)

/-- Lines 230-236 without the parse: reset `tmp = data`, inflate the tail if
the marker test succeeds, else keep the raw datagram. -/
def receiver_preprocess (inflate : List Nat → List Nat) (data : List Nat) :
    List Nat :=
  if marker_test data then inflate (data.drop 2) else data

end Adbb

/-- C9: refuted by the code.  Even for a datagram that begins with the 2-byte
zero marker, the receiver never inflates: the marker test compares `bytes`
with `str`, which Python 3 evaluates to false for every datagram, so the
payload is parsed raw. -/
theorem Adbb.C9_marker_dead_code_bug :
    ∀ (inflate : List Nat → List Nat) (data : List Nat),
      data.take 2 = [0, 0] →
      Adbb.marker_test data = false ∧
      Adbb.receiver_preprocess inflate data = data := by
  intro inflate data _
  constructor
  · rfl
  · rfl

/-- C9 witness: the theorem applied to a zlib-style datagram with the zero
marker and the identity decompressor. -/
theorem Adbb.C9_marker_dead_code_bug_witness :
    ([0, 0, 120, 156] : List Nat).take 2 = [0, 0] ∧
    Adbb.marker_test [0, 0, 120, 156] = false ∧
    Adbb.receiver_preprocess (fun bs => bs) [0, 0, 120, 156] = [0, 0, 120, 156] :=
  ⟨by decide, Adbb.C9_marker_dead_code_bug (fun bs => bs) [0, 0, 120, 156] (by decide)⟩

namespace Adbb

/-! ### `AniDBLink.stop` (lines 174-179)

`stop` is guarded by `if self._authed.isSet():`; only inside the guard does it
build a `LogoutCommand`, call `request` (tag allocation, In-Flight Table
insert, `appendleft` onto the deque) and wait for shutdown. -/

/-- Link state touched by `stop`: the authed flag, the outbound deque, the
In-Flight Table in insertion order, the allocator counter, and whether the
two loops are still running. -/
structure StopState where
  _authed : Bool
  _queue : List String
  cmd_queue : List (String × String)
  _current_tag : Nat
  senderRunning : Bool
  listenerRunning : Bool
deriving DecidableEq

/-- `AniDBLink.stop`: when `_authed` is set, issue a LOGOUT request through
`request` (new tag, In-Flight Table insert, `appendleft` since `prio` defaults
to false) and wait for the sender to transmit it and stop; when `_authed` is
not set, the body is skipped entirely. -/
def stopLink (s : StopState) : StopState :=
  if s._authed then
    { s with
      _current_tag := (new_tag s._current_tag).1,
      cmd_queue := s.cmd_queue ++ [((new_tag s._current_tag).2, "LOGOUT")],
      _queue := "LOGOUT" :: s._queue }
  else s

end Adbb

/-- C10: calling `stop()` on a link that never authenticated is a no-op: no
logout request is created or enqueued, the Outbound Queue, In-Flight Table
and allocator are unchanged, and neither the sender nor the listener loop is
stopped — the whole state is returned untouched. -/
theorem Adbb.C10_stop_unauthed_noop :
    ∀ s : Adbb.StopState, s._authed = false → Adbb.stopLink s = s := by
  intro s h
  unfold Adbb.stopLink
  rw [h]
  simp

/-- C10 witness: the theorem applied to a concrete unauthenticated link with
work in both queues and both loops running. -/
theorem Adbb.C10_stop_unauthed_noop_witness :
    (Adbb.StopState.mk false ["FILE"] [("T001", "FILE")] 1 true true)._authed
        = false ∧
    Adbb.stopLink (Adbb.StopState.mk false ["FILE"] [("T001", "FILE")] 1 true true)
      = Adbb.StopState.mk false ["FILE"] [("T001", "FILE")] 1 true true :=
  ⟨rfl, Adbb.C10_stop_unauthed_noop
    (Adbb.StopState.mk false ["FILE"] [("T001", "FILE")] 1 true true) rfl⟩
